import Mathlib

/-!
Verification of the Nextcloud OAuth2 provider (`tools/auth/nextcloud.go`)
against its specification.

The Go code is shallowly embedded: JSON values are an inductive type,
`encoding/json` unmarshalling into the two Go targets used by the code
(`map[string]any` and the nested anonymous response struct) is modelled by
executable decoders mirroring that library's semantics, and the HTTP
transport is an explicit function argument; every function also returns
the list of HTTP requests it issued, so "no network call" is a statement
about that list.

Parts of the repository that `nextcloud.go` uses but that are not part of
the given source (the `BaseProvider` engine internals, the `AuthUser`
record, the provider registry and `types.ParseDateTime`) are modelled from
the specification; each such definition's doc comment says so.
-/

namespace NextcloudAuth

/-- A JSON value, as produced by parsing a well-formed JSON document. -/
inductive Json where
  | null
  | bool (b : Bool)
  | num (n : Int)
  | str (s : String)
  | arr (elems : List Json)
  | obj (fields : List (String × Json))
deriving Repr

/-- Raw bytes as consumed by the normalization pipeline, abstracted up to
JSON parsing: `encoding/json` parsing is deterministic, so a byte slice
either parses to exactly one JSON value or is malformed. -/
inductive RawBytes where
  | json (j : Json)
  | malformed
deriving Repr

/-- ASCII lower-casing of one character (the struct tags here are ASCII). -/
def asciiLower (c : Char) : Char :=
  if 65 ≤ c.toNat ∧ c.toNat ≤ 90 then Char.ofNat (c.toNat + 32) else c

/-- Case-insensitive key comparison: `encoding/json` matches object keys to
struct field tags preferring an exact match but also accepting a
case-insensitive one; with all-lowercase tags the two rules coincide with
case-insensitive equality. -/
def keyMatches (k tag : String) : Bool :=
  k.data.map asciiLower == tag.data.map asciiLower

/-- Decoding a JSON value into a Go `string` field holding `cur`:
a JSON string replaces it, `null` leaves it unchanged, anything else is an
`UnmarshalTypeError`. -/
def decodeStrInto (v : Json) (cur : String) : Except String String :=
  match v with
  | .null => .ok cur
  | .str s => .ok s
  | _ => .error "json: cannot unmarshal value into Go value of type string"

/-- The innermost anonymous struct of the Nextcloud response shape:
`struct { ID string; DisplayName string; Email string }` with tags
`id`, `displayname`, `email`. -/
structure OcsData where
  id : String := ""
  displayname : String := ""
  email : String := ""
deriving Repr, DecidableEq

/-- The middle anonymous struct: `struct { Data ... }` with tag `data`. -/
structure OcsResp where
  data : OcsData := {}
deriving Repr, DecidableEq

/-- The top-level anonymous struct in `FetchAuthUser`:
`struct { OCS ... }` with tag `ocs`. -/
structure NextcloudResp where
  ocs : OcsResp := {}
deriving Repr, DecidableEq

/-- `encoding/json` decoding of a JSON value into `OcsData` (fields are
processed in input order, later assignments overwriting earlier ones;
unknown keys are ignored; `null` leaves the target unchanged). -/
def decodeOcsData (v : Json) (cur : OcsData) : Except String OcsData :=
  match v with
  | .null => .ok cur
  | .obj fs =>
      fs.foldlM (fun acc kv =>
        if keyMatches kv.1 "id" then
          (decodeStrInto kv.2 acc.id).map (fun s => { acc with id := s })
        else if keyMatches kv.1 "displayname" then
          (decodeStrInto kv.2 acc.displayname).map (fun s => { acc with displayname := s })
        else if keyMatches kv.1 "email" then
          (decodeStrInto kv.2 acc.email).map (fun s => { acc with email := s })
        else .ok acc) cur
  | _ => .error "json: cannot unmarshal value into Go value of type struct"

/-- `encoding/json` decoding of a JSON value into `OcsResp`. -/
def decodeOcsResp (v : Json) (cur : OcsResp) : Except String OcsResp :=
  match v with
  | .null => .ok cur
  | .obj fs =>
      fs.foldlM (fun acc kv =>
        if keyMatches kv.1 "data" then
          (decodeOcsData kv.2 acc.data).map (fun d => { acc with data := d })
        else .ok acc) cur
  | _ => .error "json: cannot unmarshal value into Go value of type struct"

/-- `json.Unmarshal(data, &resp)` for the anonymous response struct of
`FetchAuthUser`: malformed bytes are a syntax error; otherwise the value is
decoded structurally into a zero-valued struct. -/
def unmarshalResp (data : RawBytes) : Except String NextcloudResp :=
  match data with
  | .malformed => .error "invalid character: unexpected end of JSON input"
  | .json v =>
      match v with
      | .null => .ok {}
      | .obj fs =>
          fs.foldlM (fun (acc : NextcloudResp) kv =>
            if keyMatches kv.1 "ocs" then
              (decodeOcsResp kv.2 acc.ocs).map (fun o => { acc with ocs := o })
            else .ok acc) {}
      | _ => .error "json: cannot unmarshal value into Go value of type struct"

/-- Insert into an association list modelling a Go `map[string]any`:
a later assignment to an existing key overwrites it in place. -/
def mapSet (m : List (String × Json)) (k : String) (v : Json) : List (String × Json) :=
  match m with
  | [] => [(k, v)]
  | kv :: rest => if kv.1 == k then (k, v) :: rest else kv :: mapSet rest k v

/-- `json.Unmarshal(data, &rawUser)` for `rawUser := map[string]any{}`:
the bytes must parse and the top-level value must be a JSON object (which
populates the map, later duplicate keys overwriting earlier ones) or
`null` (which leaves the freshly initialized empty map unchanged). -/
def unmarshalMap (data : RawBytes) : Except String (List (String × Json)) :=
  match data with
  | .malformed => .error "invalid character: unexpected end of JSON input"
  | .json .null => .ok []
  | .json (.obj fs) => .ok (fs.foldl (fun m kv => mapSet m kv.1 kv.2) [])
  | .json _ => .error "json: cannot unmarshal value into Go value of type map"

/-- A Go `time.Time` value, abstracted to what `types.ParseDateTime` needs:
either a time the canonical timestamp type can represent, or one whose
conversion fails. -/
inductive GoTime where
  | valid (unixSec : Int)
  | invalid
deriving Repr, DecidableEq

/-- Modelled from the spec: the canonical timestamp type
(`tools/types.DateTime`, not part of the given source). `none` is the
zero value, representing "unknown/non-expiring" distinctly from any
concrete instant. -/
structure DateTime where
  instant : Option Int := none
deriving Repr, DecidableEq

/-- The zero value of the canonical timestamp type. -/
def DateTime.zero : DateTime := {}

/-- Modelled from the spec: `types.ParseDateTime` (not part of the given
source) converts a value into the canonical timestamp type, returning,
Go-style, the result together with an optional error; on failure the
result is the zero value. -/
def ParseDateTime (t : GoTime) : DateTime × Option String :=
  match t with
  | .valid s => ({ instant := some s }, none)
  | .invalid => (DateTime.zero, some "unable to parse the date-time value")

/-- An `oauth2.Token` as used by `FetchAuthUser`: the credential fields,
the expiry, and the raw identity claims embedded in the token response
(the bytes the claims-based fallback would return). -/
structure Token where
  accessToken : String
  refreshToken : String
  expiry : GoTime
  idTokenClaims : RawBytes
deriving Repr

/-- Modelled from the spec: the Canonical Identity record (`AuthUser`,
declared in the package but not part of the given source); field set per
the data model section of the spec and the composite literal in
`Nextcloud.FetchAuthUser`. `rawUser` is the generically decoded payload. -/
structure AuthUser where
  id : String
  name : String
  username : String
  email : String
  avatarURL : String
  rawUser : List (String × Json)
  accessToken : String
  refreshToken : String
  expiry : DateTime := {}
deriving Repr

/-- Modelled from the spec: the error taxonomy of the core.
`userInfoFetch` carries the HTTP status of the failed profile request;
`normalization` carries the JSON decode error message. -/
inductive AuthError where
  | userInfoFetch (status : Nat)
  | normalization (msg : String)
deriving Repr, DecidableEq

/-- An HTTP request as assembled by the provider code. -/
structure HttpRequest where
  method : String
  url : String
  headers : List (String × String)
deriving Repr, DecidableEq

/-- An HTTP response as seen by the provider code. -/
structure HttpResponse where
  statusCode : Nat
  body : RawBytes
deriving Repr

/-- The HTTP transport capability supplied by the host. -/
def Transport : Type := HttpRequest → HttpResponse

/-- The `BaseProvider` configuration embedded in `Nextcloud`; fields per
the composite literal in `NewNextcloudProvider` plus the host-injected
credential fields, which Go zero-initializes to the empty string. -/
structure BaseProvider where
  displayName : String := ""
  pkce : Bool := false
  scopes : List String := []
  authURL : String := ""
  tokenURL : String := ""
  userInfoURL : String := ""
  clientId : String := ""
  clientSecret : String := ""
  redirectURL : String := ""
deriving Repr, DecidableEq

/-- `Nextcloud` embeds `BaseProvider` and adds nothing. -/
structure Nextcloud where
  base : BaseProvider
deriving Repr, DecidableEq

/-- `NewNextcloudProvider` creates a new Nextcloud provider instance with
some defaults; a pure constructor, assembling a struct and nothing else. -/
def NewNextcloudProvider : Nextcloud :=
  { base :=
    { displayName := "Nextcloud"
      pkce := true
      scopes := ["read:user", "user:email"]
      authURL := "https://nextcloud.your.domain/apps/oauth2/authorize"
      tokenURL := "https://nextcloud.your.domain/apps/oauth2/api/v1/token"
      userInfoURL := "https://nextcloud.your.domain/ocs/v2.php/cloud/user?format=json" } }

/-- Modelled from the spec: `sendRawUserInfoRequest` (BaseProvider engine,
not part of the given source) sends the request through the transport and
returns the body bytes on a 2xx status, failing with `UserInfoFetchError`
otherwise. -/
def sendRawUserInfoRequest (transport : Transport) (req : HttpRequest) :
    Except AuthError RawBytes :=
  let resp := transport req
  if 200 ≤ resp.statusCode ∧ resp.statusCode < 300 then .ok resp.body
  else .error (.userInfoFetch resp.statusCode)

/-- Modelled from the spec: `BaseProvider.FetchRawUserInfo` (not part of
the given source): with a non-empty `userInfoURL` it issues an
authenticated GET and returns the raw response bytes; with an empty one it
falls back to the identity claims embedded in the token response, issuing
no request. The second component lists the HTTP requests issued. -/
def BaseProvider.FetchRawUserInfo (p : BaseProvider) (transport : Transport)
    (token : Token) : Except AuthError RawBytes × List HttpRequest :=
  if p.userInfoURL = "" then
    (.ok token.idTokenClaims, [])
  else
    let req : HttpRequest :=
      { method := "GET"
        url := p.userInfoURL
        headers := [("Authorization", "Bearer " ++ token.accessToken)] }
    (sendRawUserInfoRequest transport req, [req])

/-- `Nextcloud.FetchRawUserInfo`, as written in the source: when
`userInfoURL` is non-empty it delegates to the base implementation;
otherwise it builds a GET request to `p.userInfoURL` (the empty string —
`http.NewRequestWithContext` accepts it, since the empty URL parses), sets
the `Authorization` and `OCS-APIRequest` headers and sends it. The second
component lists the HTTP requests issued. -/
def Nextcloud.FetchRawUserInfo (p : Nextcloud) (transport : Transport)
    (token : Token) : Except AuthError RawBytes × List HttpRequest :=
  if p.base.userInfoURL ≠ "" then
    p.base.FetchRawUserInfo transport token
  else
    let req : HttpRequest :=
      { method := "GET"
        url := p.base.userInfoURL
        headers := [("Authorization", "Bearer " ++ token.accessToken),
                    ("OCS-APIRequest", "true")] }
    (sendRawUserInfoRequest transport req, [req])

/-- The body of `Nextcloud.FetchAuthUser` after the raw fetch, as written
in the source: decode the bytes generically into `rawUser`, decode them
structurally into the response struct, and assemble the `AuthUser`; the
error of `types.ParseDateTime` is discarded with a blank identifier.
Factored out of `FetchAuthUser` so the fetch step and the normalization
step can be reasoned about separately; errors of the fetch step are
returned unchanged, exactly as the source's early `return nil, err`. -/
def normalizeFetched (token : Token) (dataRes : Except AuthError RawBytes) :
    Except AuthError AuthUser :=
  match dataRes with
  | .error e => .error e
  | .ok data =>
    match unmarshalMap data with
    | .error e => .error (.normalization e)
    | .ok rawUser =>
      match unmarshalResp data with
      | .error e => .error (.normalization e)
      | .ok resp =>
        .ok
          { id := resp.ocs.data.id
            name := resp.ocs.data.displayname
            username := resp.ocs.data.id
            email := resp.ocs.data.email
            avatarURL := ""
            rawUser := rawUser
            accessToken := token.accessToken
            refreshToken := token.refreshToken
            expiry := (ParseDateTime token.expiry).1 }

/-- `Nextcloud.FetchAuthUser`, as written in the source: fetch the raw
bytes with `FetchRawUserInfo`, then normalize them (`normalizeFetched`). -/
def Nextcloud.FetchAuthUser (p : Nextcloud) (transport : Transport)
    (token : Token) : Except AuthError AuthUser × List HttpRequest :=
  let fetched := p.FetchRawUserInfo transport token
  (normalizeFetched token fetched.1, fetched.2)

/-- `NameNextcloud` is the unique name of the Nextcloud provider. -/
def NameNextcloud : String := "nextcloud"

/-- Modelled from the spec: the process-wide provider registry entries
contributed by this module during process initialization — the module's
single `Providers[NameNextcloud] = wrapFactory(NewNextcloudProvider)`
statement, as a list of (name, factory) registrations. -/
def moduleRegistrations : List (String × (Unit → Nextcloud)) :=
  [(NameNextcloud, fun _ => NewNextcloudProvider)]

/-! Concrete fixtures used to instantiate the claims. -/

/-- A provider configured with an empty `userInfoURL`. -/
def emptyURLProvider : Nextcloud :=
  { base := { NewNextcloudProvider.base with userInfoURL := "" } }

/-- A transport that answers every request with a 404 and an empty body,
as a real transport would reject the request to the empty URL. -/
def refusingTransport : Transport :=
  fun _ => { statusCode := 404, body := .malformed }

/-- A token carrying embedded identity claims, for exercising the
claims-based fallback. -/
def tokenWithClaims : Token :=
  { accessToken := "tok"
    refreshToken := ""
    expiry := .valid 0
    idTokenClaims := .json (.str "claims") }

/-- A provider configured with the profile endpoint of the spec's
scenario, PKCE disabled. -/
def scenarioProvider : Nextcloud :=
  { base := { NewNextcloudProvider.base with
                userInfoURL := "https://example.test/profile"
                pkce := false } }

/-- The profile payload of the spec's scenario. -/
def scenarioPayload : Json :=
  .obj [("ocs", .obj [("data", .obj
    [("id", .str "u1"), ("displayname", .str "Jane Doe"),
     ("email", .str "jane@example.test")])])]

/-- A transport serving the scenario's profile payload with status 200. -/
def scenarioTransport : Transport :=
  fun _ => { statusCode := 200, body := .json scenarioPayload }

/-- The scenario's token: `{access_token:"tok123"}`. -/
def scenarioToken : Token :=
  { accessToken := "tok123"
    refreshToken := ""
    expiry := .valid 0
    idTokenClaims := .malformed }

/-- A profile payload that is valid JSON of the expected shape but whose
`ocs.data` object carries no `id` field at all. -/
def missingIdPayload : Json :=
  .obj [("ocs", .obj [("data", .obj [])])]

/-- A transport serving `missingIdPayload` with status 200. -/
def missingIdTransport : Transport :=
  fun _ => { statusCode := 200, body := .json missingIdPayload }

/-- A transport answering every request with HTTP 401. -/
def unauthorizedTransport : Transport :=
  fun _ => { statusCode := 401, body := .malformed }

/-- A transport answering with status 200 but a body that is not
well-formed JSON. -/
def malformedBodyTransport : Transport :=
  fun _ => { statusCode := 200, body := .malformed }

/-- A transport serving a payload whose `ocs.data` object has only the
mandatory `id` field: the optional `displayname` and `email` are absent. -/
def idOnlyTransport : Transport :=
  fun _ =>
    { statusCode := 200
      body := .json (.obj [("ocs", .obj [("data", .obj [("id", .str "solo")])])]) }

/-- A token whose expiry value the canonical timestamp type cannot parse. -/
def badExpiryToken : Token :=
  { accessToken := "tokX"
    refreshToken := "refX"
    expiry := .invalid
    idTokenClaims := .malformed }

/-- The identity `FetchAuthUser` computes for the scenario provider and
token when the transport serves `missingIdPayload`. -/
def missingIdResult : AuthUser :=
  { id := ""
    name := ""
    username := ""
    email := ""
    avatarURL := ""
    rawUser := [("ocs", .obj [("data", .obj [])])]
    accessToken := "tok123"
    refreshToken := ""
    expiry := { instant := some 0 } }

/-- The identity `FetchAuthUser` computes for `scenarioProvider`,
`idOnlyTransport` and `badExpiryToken`. -/
def idOnlyResult : AuthUser :=
  { id := "solo"
    name := ""
    username := "solo"
    email := ""
    avatarURL := ""
    rawUser := [("ocs", .obj [("data", .obj [("id", .str "solo")])])]
    accessToken := "tokX"
    refreshToken := "refX"
    expiry := DateTime.zero }

/-! Helper lemmas shared by the claim theorems. -/

/-- Every error of `sendRawUserInfoRequest` is a `UserInfoFetchError`
carrying the response status. -/
theorem sendRawUserInfoRequest_error {transport : Transport}
    {req : HttpRequest} {e : AuthError}
    (h : sendRawUserInfoRequest transport req = .error e) :
    ∃ s, e = .userInfoFetch s := by
  simp only [sendRawUserInfoRequest] at h
  split at h
  · exact absurd h (by simp)
  · exact ⟨(transport req).statusCode, (Except.error.injEq _ _).mp h.symm⟩

/-- Every error of `Nextcloud.FetchRawUserInfo` is a `UserInfoFetchError`. -/
theorem fetchRaw_error_userInfoFetch {p : Nextcloud} {transport : Transport}
    {token : Token} {e : AuthError}
    (h : (p.FetchRawUserInfo transport token).1 = .error e) :
    ∃ s, e = .userInfoFetch s := by
  unfold Nextcloud.FetchRawUserInfo at h
  split at h
  · unfold BaseProvider.FetchRawUserInfo at h
    split at h
    · exact absurd h (by simp)
    · exact sendRawUserInfoRequest_error h
  · exact sendRawUserInfoRequest_error h

/-- Characterization of a successful normalization: the fetch succeeded,
both decodes succeeded, and the identity is the record the source
assembles from them. -/
theorem normalizeFetched_ok {token : Token} {d : Except AuthError RawBytes}
    {u : AuthUser} (h : normalizeFetched token d = .ok u) :
    ∃ data m r, d = .ok data ∧ unmarshalMap data = .ok m ∧
      unmarshalResp data = .ok r ∧
      u = { id := r.ocs.data.id
            name := r.ocs.data.displayname
            username := r.ocs.data.id
            email := r.ocs.data.email
            avatarURL := ""
            rawUser := m
            accessToken := token.accessToken
            refreshToken := token.refreshToken
            expiry := (ParseDateTime token.expiry).1 } := by
  cases d with
  | error e => exact absurd h (by simp [normalizeFetched])
  | ok data =>
    cases hm : unmarshalMap data with
    | error e => exact absurd h (by simp [normalizeFetched, hm])
    | ok m =>
      cases hr : unmarshalResp data with
      | error e => exact absurd h (by simp [normalizeFetched, hm, hr])
      | ok r =>
        refine ⟨data, m, r, rfl, hm, hr, ?_⟩
        have h' := h
        simp only [normalizeFetched, hm, hr] at h'
        exact ((Except.ok.injEq _ _).mp h').symm

/-- Whether normalization succeeds does not depend on the token: the token
only contributes the credential and expiry fields of the result. -/
theorem normalizeFetched_isOk_congr (t₁ t₂ : Token)
    (d : Except AuthError RawBytes) :
    (normalizeFetched t₁ d).toOption.isSome
      = (normalizeFetched t₂ d).toOption.isSome := by
  cases d with
  | error e => rfl
  | ok data =>
    cases hm : unmarshalMap data with
    | error e => simp only [normalizeFetched, hm]
    | ok m =>
      cases hr : unmarshalResp data with
      | error e => simp only [normalizeFetched, hm, hr]
      | ok r =>
          simp only [normalizeFetched, hm, hr]
          rfl

/-! The claims. -/

/-- Claim C1, refuted by the code: the claim says that with an empty
`userInfoURL`, `FetchRawUserInfo` never issues an HTTP GET and returns the
claims embedded in the token — as the function's own doc comment promises.
The source instead builds a GET request to the empty `userInfoURL` and
sends it: evaluated at such a configuration, exactly one GET request to
`""` is issued and the result is the transport's failure, not the token's
embedded claims. -/
theorem claim_C1_empty_userInfoURL_issues_get :
    (emptyURLProvider.FetchRawUserInfo refusingTransport tokenWithClaims).2 =
      [{ method := "GET", url := "",
         headers := [("Authorization", "Bearer tok"), ("OCS-APIRequest", "true")] }] ∧
    (emptyURLProvider.FetchRawUserInfo refusingTransport tokenWithClaims).1 =
      .error (.userInfoFetch 404) :=
  ⟨rfl, rfl⟩

/-- Claim C2, counterexample: for the payload
`{"ocs":{"data":{}}}` — valid JSON with the mandatory `ocs.data.id` field
absent — `FetchAuthUser` does not fail with a `NormalizationError`; it
succeeds and returns an identity whose `id` is the empty string. -/
theorem claim_C2_counterexample :
    (scenarioProvider.FetchAuthUser missingIdTransport scenarioToken).1 =
      .ok missingIdResult ∧ missingIdResult.id = "" :=
  ⟨rfl, rfl⟩

/-- Claim C2, amended: if the raw payload decodes as valid JSON (both
generically and into the expected envelope shape) but the mandatory
`ocs.data.id` field is absent or empty, `FetchAuthUser` nevertheless
succeeds, returning an identity whose `id` (and `username`) is the empty
string — the code performs no emptiness check on the identifier. -/
theorem claim_C2_missing_id_not_rejected (p : Nextcloud) (transport : Transport)
    (token : Token) (data : RawBytes) (m : List (String × Json))
    (r : NextcloudResp)
    (hfetch : (p.FetchRawUserInfo transport token).1 = .ok data)
    (hmap : unmarshalMap data = .ok m)
    (hresp : unmarshalResp data = .ok r)
    (hid : r.ocs.data.id = "") :
    (p.FetchAuthUser transport token).1 =
      .ok { id := ""
            name := r.ocs.data.displayname
            username := ""
            email := r.ocs.data.email
            avatarURL := ""
            rawUser := m
            accessToken := token.accessToken
            refreshToken := token.refreshToken
            expiry := (ParseDateTime token.expiry).1 } := by
  show normalizeFetched token (p.FetchRawUserInfo transport token).1 = _
  rw [hfetch]
  simp only [normalizeFetched, hmap, hresp, hid]

/-- Witness for the amended claim C2 at the concrete
`{"ocs":{"data":{}}}` payload. -/
theorem claim_C2_missing_id_not_rejected_witness :
    (scenarioProvider.FetchAuthUser missingIdTransport scenarioToken).1 =
      .ok missingIdResult :=
  claim_C2_missing_id_not_rejected scenarioProvider missingIdTransport
    scenarioToken (.json missingIdPayload) [("ocs", .obj [("data", .obj [])])]
    {} rfl rfl rfl rfl

/-- Claim C3: for the spec's scenario — profile endpoint configured,
token `{access_token:"tok123"}`, profile response
`{"ocs":{"data":{"id":"u1","displayname":"Jane Doe","email":"jane@example.test"}}}`
— `FetchAuthUser` returns the identity with id `u1`, name `Jane Doe`,
username `u1`, email `jane@example.test` and accessToken `tok123`. -/
theorem claim_C3_scenario :
    ((scenarioProvider.FetchAuthUser scenarioTransport scenarioToken).1.toOption.map
        AuthUser.id) = some "u1" ∧
    ((scenarioProvider.FetchAuthUser scenarioTransport scenarioToken).1.toOption.map
        AuthUser.name) = some "Jane Doe" ∧
    ((scenarioProvider.FetchAuthUser scenarioTransport scenarioToken).1.toOption.map
        AuthUser.username) = some "u1" ∧
    ((scenarioProvider.FetchAuthUser scenarioTransport scenarioToken).1.toOption.map
        AuthUser.email) = some "jane@example.test" ∧
    ((scenarioProvider.FetchAuthUser scenarioTransport scenarioToken).1.toOption.map
        AuthUser.accessToken) = some "tok123" :=
  ⟨rfl, rfl, rfl, rfl, rfl⟩

/-- Claim C4: on every successful `FetchAuthUser` the identity's
`accessToken` and `refreshToken` are copied verbatim from the token, and
its `expiry` is the token's expiry converted by `ParseDateTime` into the
canonical timestamp type. -/
theorem claim_C4_credentials_preserved (p : Nextcloud) (transport : Transport)
    (token : Token) (u : AuthUser)
    (h : (p.FetchAuthUser transport token).1 = .ok u) :
    u.accessToken = token.accessToken ∧
    u.refreshToken = token.refreshToken ∧
    u.expiry = (ParseDateTime token.expiry).1 := by
  have h' : normalizeFetched token (p.FetchRawUserInfo transport token).1 = .ok u := h
  obtain ⟨data, m, r, -, -, -, hu⟩ := normalizeFetched_ok h'
  subst hu
  exact ⟨rfl, rfl, rfl⟩

/-- Witness for claim C4 at a concrete provider, transport and token. -/
theorem claim_C4_credentials_preserved_witness :
    idOnlyResult.accessToken = badExpiryToken.accessToken ∧
    idOnlyResult.refreshToken = badExpiryToken.refreshToken ∧
    idOnlyResult.expiry = (ParseDateTime badExpiryToken.expiry).1 :=
  claim_C4_credentials_preserved scenarioProvider idOnlyTransport
    badExpiryToken idOnlyResult rfl

/-- Claim C5: whenever the raw-profile fetch fails, `FetchAuthUser` fails
with that same error, which is always a `UserInfoFetchError`; no identity
(and hence no `rawUser`) is ever produced on that path. -/
theorem claim_C5_fetch_failure_propagates (p : Nextcloud)
    (transport : Transport) (token : Token) (e : AuthError)
    (h : (p.FetchRawUserInfo transport token).1 = .error e) :
    (p.FetchAuthUser transport token).1 = .error e ∧
    ∃ s, e = .userInfoFetch s := by
  constructor
  · show normalizeFetched token (p.FetchRawUserInfo transport token).1 = .error e
    rw [h]
    rfl
  · exact fetchRaw_error_userInfoFetch h

/-- Witness for claim C5: the profile endpoint answers HTTP 401. -/
theorem claim_C5_fetch_failure_propagates_witness :
    (scenarioProvider.FetchAuthUser unauthorizedTransport scenarioToken).1 =
      .error (.userInfoFetch 401) :=
  (claim_C5_fetch_failure_propagates scenarioProvider unauthorizedTransport
    scenarioToken (.userInfoFetch 401) rfl).1

/-- Claim C6: (a) if the fetched bytes fail the generic JSON decode
(malformed bytes or a wrong top-level shape), `FetchAuthUser` fails with a
`NormalizationError` carrying that decode error — it never panics, being a
total function into `Except`; (b) a payload whose `ocs.data` object has
only the `id` field — the optional `displayname` and `email` absent —
normalizes successfully with empty-string name and email. -/
theorem claim_C6_normalization_robustness :
    (∀ (p : Nextcloud) (transport : Transport) (token : Token)
        (data : RawBytes) (msg : String),
      (p.FetchRawUserInfo transport token).1 = .ok data →
      unmarshalMap data = .error msg →
      (p.FetchAuthUser transport token).1 = .error (.normalization msg)) ∧
    (∀ (p : Nextcloud) (transport : Transport) (token : Token) (i : String),
      (p.FetchRawUserInfo transport token).1 =
        .ok (.json (.obj [("ocs", .obj [("data", .obj [("id", .str i)])])])) →
      ((p.FetchAuthUser transport token).1.toOption.map AuthUser.name)
          = some "" ∧
      ((p.FetchAuthUser transport token).1.toOption.map AuthUser.email)
          = some "") := by
  constructor
  · intro p transport token data msg hfetch hmap
    show normalizeFetched token (p.FetchRawUserInfo transport token).1 = _
    rw [hfetch]
    simp only [normalizeFetched, hmap]
  · intro p transport token i hfetch
    constructor
    · show ((normalizeFetched token
          (p.FetchRawUserInfo transport token).1).toOption.map AuthUser.name)
            = some ""
      rw [hfetch]
      rfl
    · show ((normalizeFetched token
          (p.FetchRawUserInfo transport token).1).toOption.map AuthUser.email)
            = some ""
      rw [hfetch]
      rfl

/-- Witness for claim C6: a 200 response with malformed bytes yields a
`NormalizationError`; the payload `{"ocs":{"data":{"id":"solo"}}}` yields
an identity with empty name and email. -/
theorem claim_C6_normalization_robustness_witness :
    (scenarioProvider.FetchAuthUser malformedBodyTransport scenarioToken).1 =
      .error (.normalization "invalid character: unexpected end of JSON input") ∧
    ((scenarioProvider.FetchAuthUser idOnlyTransport scenarioToken).1.toOption.map
        AuthUser.name) = some "" ∧
    ((scenarioProvider.FetchAuthUser idOnlyTransport scenarioToken).1.toOption.map
        AuthUser.email) = some "" :=
  ⟨claim_C6_normalization_robustness.1 scenarioProvider malformedBodyTransport
      scenarioToken .malformed "invalid character: unexpected end of JSON input"
      rfl rfl,
   (claim_C6_normalization_robustness.2 scenarioProvider idOnlyTransport
      scenarioToken "solo" rfl).1,
   (claim_C6_normalization_robustness.2 scenarioProvider idOnlyTransport
      scenarioToken "solo" rfl).2⟩

/-- Claim C7: `NewNextcloudProvider` is a pure, argumentless constructor
returning a provider pre-populated with the default display name, scopes,
the three endpoint URLs and the PKCE flag set, while client credentials
and redirect URL are empty. -/
theorem claim_C7_constructor_defaults :
    NewNextcloudProvider.base.displayName = "Nextcloud" ∧
    NewNextcloudProvider.base.pkce = true ∧
    NewNextcloudProvider.base.scopes = ["read:user", "user:email"] ∧
    NewNextcloudProvider.base.authURL
      = "https://nextcloud.your.domain/apps/oauth2/authorize" ∧
    NewNextcloudProvider.base.tokenURL
      = "https://nextcloud.your.domain/apps/oauth2/api/v1/token" ∧
    NewNextcloudProvider.base.userInfoURL
      = "https://nextcloud.your.domain/ocs/v2.php/cloud/user?format=json" ∧
    NewNextcloudProvider.base.clientId = "" ∧
    NewNextcloudProvider.base.clientSecret = "" ∧
    NewNextcloudProvider.base.redirectURL = "" :=
  ⟨rfl, rfl, rfl, rfl, rfl, rfl, rfl, rfl, rfl⟩

/-- Claim C8: the module contributes exactly one registration to the
process-wide provider registry, under the name `"nextcloud"`, mapping it
to the `NewNextcloudProvider` factory; it performs no other writes. -/
theorem claim_C8_single_registration :
    moduleRegistrations.map Prod.fst = [NameNextcloud] ∧
    NameNextcloud = "nextcloud" ∧
    moduleRegistrations.map (fun f => f.2 ()) = [NewNextcloudProvider] :=
  ⟨rfl, rfl, rfl⟩

/-- Claim C9: on every successful `FetchAuthUser` the identity's
`username` equals its `id` (both copied from `ocs.data.id`) and its
`avatarURL` is the empty string. -/
theorem claim_C9_username_copies_id (p : Nextcloud) (transport : Transport)
    (token : Token) (u : AuthUser)
    (h : (p.FetchAuthUser transport token).1 = .ok u) :
    u.username = u.id ∧ u.avatarURL = "" := by
  have h' : normalizeFetched token (p.FetchRawUserInfo transport token).1 = .ok u := h
  obtain ⟨data, m, r, -, -, -, hu⟩ := normalizeFetched_ok h'
  subst hu
  exact ⟨rfl, rfl⟩

/-- Witness for claim C9 at a concrete provider, transport and token. -/
theorem claim_C9_username_copies_id_witness :
    idOnlyResult.username = idOnlyResult.id ∧ idOnlyResult.avatarURL = "" :=
  claim_C9_username_copies_id scenarioProvider idOnlyTransport badExpiryToken
    idOnlyResult rfl

/-- Claim C10: the error of `types.ParseDateTime` is discarded — if the
token's expiry fails to convert, a successful identity still comes back
with the zero timestamp as its expiry, and whether `FetchAuthUser`
succeeds does not depend on the expiry value at all. -/
theorem claim_C10_expiry_error_discarded (p : Nextcloud)
    (transport : Transport) (token : Token) :
    (∀ u, (p.FetchAuthUser transport token).1 = .ok u →
      (ParseDateTime token.expiry).2.isSome = true →
      u.expiry = DateTime.zero) ∧
    (∀ e : GoTime,
      (p.FetchAuthUser transport { token with expiry := e }).1.toOption.isSome
        = (p.FetchAuthUser transport token).1.toOption.isSome) := by
  constructor
  · intro u h hfail
    have h' : normalizeFetched token (p.FetchRawUserInfo transport token).1 = .ok u := h
    obtain ⟨data, m, r, -, -, -, hu⟩ := normalizeFetched_ok h'
    subst hu
    show (ParseDateTime token.expiry).1 = DateTime.zero
    cases hex : token.expiry with
    | valid s => rw [hex] at hfail; simp [ParseDateTime] at hfail
    | invalid => rfl
  · intro e
    have hfetch : p.FetchRawUserInfo transport { token with expiry := e }
        = p.FetchRawUserInfo transport token := rfl
    show (normalizeFetched { token with expiry := e }
        (p.FetchRawUserInfo transport { token with expiry := e }).1).toOption.isSome
      = (normalizeFetched token
        (p.FetchRawUserInfo transport token).1).toOption.isSome
    rw [hfetch]
    exact normalizeFetched_isOk_congr _ _ _

/-- Witness for claim C10: a token with an unparseable expiry still
normalizes, with the zero timestamp, and changing the expiry does not
change whether `FetchAuthUser` succeeds. -/
theorem claim_C10_expiry_error_discarded_witness :
    idOnlyResult.expiry = DateTime.zero ∧
    (scenarioProvider.FetchAuthUser idOnlyTransport
        { badExpiryToken with expiry := .valid 7 }).1.toOption.isSome
      = (scenarioProvider.FetchAuthUser idOnlyTransport
        badExpiryToken).1.toOption.isSome :=
  ⟨(claim_C10_expiry_error_discarded scenarioProvider idOnlyTransport
      badExpiryToken).1 idOnlyResult rfl rfl,
   (claim_C10_expiry_error_discarded scenarioProvider idOnlyTransport
      badExpiryToken).2 (.valid 7)⟩

end NextcloudAuth
